import Mathlib

/-!
Verification of the stdio JSON-RPC / MCP bridge in `nyc_taxi_data`
(`query_tool.py` — line-oriented protocol loop, and `mcp_server2.py` —
pool-based query executor).  Python values flowing through the protocol
are embedded as a JSON value type; Python dict/`.get`/`[]` semantics,
truthiness, and exception propagation are embedded explicitly.  The
database driver is a parameter of every function that consults it, so
theorems quantify over all driver behaviours.
-/

/-- A JSON value as produced by `json.loads` (Python `None`/`bool`/`int`/
`str`/`list`/`dict`).  Numbers are integers here: every number the
protocol itself produces or inspects is an integer. -/
inductive JVal where
  | null
  | bool (b : Bool)
  | num (n : Int)
  | str (s : String)
  | arr (xs : List JVal)
  | obj (fields : List (String × JVal))

/-- Lookup of a key in the field list of a parsed JSON object.  `json.loads`
keeps the last occurrence of a duplicated key, so the last binding wins. -/
def lookupLast (fs : List (String × JVal)) (k : String) : Option JVal :=
  match fs with
  | [] => none
  | (k', v) :: rest =>
    match lookupLast rest k with
    | some r => some r
    | none => if k' = k then some v else none

mutual

/-- Rendering of a JSON value to text, embedding `json.dumps`.  Whitespace
and string escaping of the Python serializer are abstracted; no claim
inspects the rendered text. -/
def renderJ : JVal → String
  | .null => "null"
  | .bool true => "true"
  | .bool false => "false"
  | .num n => toString n
  | .str s => "\"" ++ s ++ "\""
  | .arr xs => "[" ++ renderL xs ++ "]"
  | .obj fs => "\x7b" ++ renderF fs ++ "\x7d"

/-- Rendering of a JSON array body. -/
def renderL : List JVal → String
  | [] => ""
  | [x] => renderJ x
  | x :: xs => renderJ x ++ ", " ++ renderL xs

/-- Rendering of a JSON object body. -/
def renderF : List (String × JVal) → String
  | [] => ""
  | [(k, v)] => "\"" ++ k ++ "\": " ++ renderJ v
  | (k, v) :: fs => "\"" ++ k ++ "\": " ++ renderJ v ++ ", " ++ renderF fs

end

/-- A Python exception as it can escape a handler: `KeyError` from
`req["missing"]`, `AttributeError` from `non_dict.get(...)`. -/
inductive PyErr where
  | keyErr (key : String)
  | attrErr (msg : String)
deriving DecidableEq

/-- Embedding of a Python `==` comparison between the result of a `.get`
(`None` or a value) and a string literal: only an equal string compares
equal. -/
def optIsStr (m : Option JVal) (s : String) : Bool :=
  match m with
  | some (.str t) => t == s
  | _ => false

/-- Embedding of Python `str(e)` for the exceptions above
(`str(KeyError('id'))` prints as `'id'`). -/
def pyErrMsg : PyErr → String
  | .keyErr k => "'" ++ k ++ "'"
  | .attrErr m => m

/-- Embedding of Python `v.get(k)`: `None` (here `Option.none`) when the key
is absent, `AttributeError` when `v` is not a dict. -/
def pyGet (v : JVal) (k : String) : Except PyErr (Option JVal) :=
  match v with
  | .obj fs => .ok (lookupLast fs k)
  | _ => .error (.attrErr "object has no attribute get")

/-- Embedding of Python `v.get(k, dflt)`. -/
def pyGetD (v : JVal) (k : String) (dflt : JVal) : Except PyErr JVal :=
  match v with
  | .obj fs => .ok ((lookupLast fs k).getD dflt)
  | _ => .error (.attrErr "object has no attribute get")

/-- Embedding of Python `v[k]` on a dict: `KeyError` when the key is absent. -/
def pyIndex (v : JVal) (k : String) : Except PyErr JVal :=
  match v with
  | .obj fs =>
    match lookupLast fs k with
    | some x => .ok x
    | none => .error (.keyErr k)
  | _ => .error (.attrErr "object is not subscriptable")

/-- Embedding of Python truthiness (`if not sql:`). -/
def pyFalsy : JVal → Bool
  | .null => true
  | .bool b => !b
  | .num n => n == 0
  | .str s => s.isEmpty
  | .arr xs => xs.isEmpty
  | .obj fs => fs.isEmpty

/-- Embedding of Python f-string interpolation of a value
(`str(None) = "None"`, `str(True) = "True"`; container repr abstracted). -/
def pyShowVal : JVal → String
  | .null => "None"
  | .bool true => "True"
  | .bool false => "False"
  | .num n => toString n
  | .str s => s
  | .arr xs => renderJ (.arr xs)
  | .obj fs => renderJ (.obj fs)

/-- Interpolation of a `v.get(k)` result: an absent key gives Python `None`. -/
def pyShowOpt : Option JVal → String
  | none => "None"
  | some v => pyShowVal v

/-- Observable reply of `query_tool.query_db`: it returns either
`{"error": str(e)}` (all driver exceptions are caught inside it) or
`{"result": ...}`.  The protocol layer is parameterized by a function of
this type, so protocol theorems hold for every driver behaviour. -/
inductive DbReply where
  | errReply (msg : String)
  | okReply (v : JVal)

/-- A successful response frame, embedding the dicts
`{"jsonrpc": "2.0", "id": ..., "result": ...}` built by the handlers in
`query_tool.py` (key order as in the source). -/
def resFrame (i : JVal) (payload : JVal) : JVal :=
  .obj [("jsonrpc", .str "2.0"), ("id", i), ("result", payload)]

/-- An error response frame, embedding
`{"jsonrpc": "2.0", "id": ..., "error": {"code": ..., "message": ...}}`. -/
def errFrame (i : JVal) (code : Int) (msg : String) : JVal :=
  .obj [("jsonrpc", .str "2.0"), ("id", i),
        ("error", .obj [("code", .num code), ("message", .str msg)])]

/-- The `result` payload of `handle_initialize` in `query_tool.py`. -/
def initPayload : JVal :=
  .obj [("protocolVersion", .str "2024-11-05"),
        ("capabilities", .obj [("tools", .obj [])]),
        ("serverInfo", .obj [("name", .str "postgres-query-server"),
                             ("version", .str "1.0.0")])]

/-- The `result` payload of `handle_tools_list` in `query_tool.py`. -/
def toolsListPayload : JVal :=
  .obj [("tools", .arr [
    .obj [("name", .str "query_database"),
          ("description", .str "Execute a SQL query on the PostgreSQL database and return results"),
          ("inputSchema", .obj [
            ("type", .str "object"),
            ("properties", .obj [
              ("sql", .obj [("type", .str "string"),
                            ("description", .str "The SQL query to execute")])]),
            ("required", .arr [.str "sql"])])]])]

/-- The content envelope `handle_tools_call` wraps a successful database
result in: `{"content": [{"type": "text", "text": json.dumps(...)}]}`. -/
def contentEnvelope (r : JVal) : JVal :=
  .obj [("content", .arr [.obj [("type", .str "text"),
                                ("text", .str (renderJ r))]])]

/-- Embedding of `handle_tools_call` from `query_tool.py` (lines 94-146),
parameterized by the observable behaviour of `query_db`.  Statement order
follows the source: `params`/`name`/`arguments` are read before the tool
check, the `sql` truthiness check precedes the database call, and
`req["id"]` is read where the source reads it (so a missing `id` raises
`KeyError` exactly where the source does). -/
def handleToolsCall (db : JVal → DbReply) (req : JVal) : Except PyErr JVal :=
  match pyGetD req "params" (.obj []) with
  | .error e => .error e
  | .ok params =>
    match pyGet params "name" with
    | .error e => .error e
    | .ok toolName =>
      match pyGetD params "arguments" (.obj []) with
      | .error e => .error e
      | .ok args =>
        if !(optIsStr toolName "query_database") then
          match pyIndex req "id" with
          | .error e => .error e
          | .ok i => .ok (errFrame i (-32602) ("Unknown tool: " ++ pyShowOpt toolName))
        else
          match pyGetD args "sql" (.str "") with
          | .error e => .error e
          | .ok sqlv =>
            if pyFalsy sqlv then
              match pyIndex req "id" with
              | .error e => .error e
              | .ok i => .ok (errFrame i (-32602) "Missing required parameter: sql")
            else
              let result := db sqlv
              match pyIndex req "id" with
              | .error e => .error e
              | .ok i =>
                match result with
                | .errReply m => .ok (errFrame i (-32001) ("Database error: " ++ m))
                | .okReply r => .ok (resFrame i (contentEnvelope r))

/-- Embedding of `send_error_response` from `query_tool.py` (lines 148-158):
a frame is printed only when the request carries a non-null `id`. -/
def sendErrorFrames (req : JVal) (code : Int) (msg : String) : List JVal :=
  match req with
  | .obj fs =>
    match lookupLast fs "id" with
    | some .null => []
    | some i => [errFrame i code msg]
    | none => []
  | _ => []

/-- Embedding of the dispatch portion of `main` in `query_tool.py`
(lines 176-207): method lookup, the five known handlers, and the
unknown-method fallthrough.  The returned list holds the frames printed
for this request; an escaping Python exception is returned as `.error`
and handled by `processValue` (the loop's `except Exception` clause). -/
def dispatchReq (db : JVal → DbReply) (req : JVal) : Except PyErr (List JVal) :=
  match pyGet req "method" with
  | .error e => .error e
  | .ok m =>
    if optIsStr m "initialize" then
      match pyIndex req "id" with
      | .error e => .error e
      | .ok i => .ok [resFrame i initPayload]
    else if optIsStr m "tools/list" then
      match pyIndex req "id" with
      | .error e => .error e
      | .ok i => .ok [resFrame i toolsListPayload]
    else if optIsStr m "tools/call" then
      match handleToolsCall db req with
      | .error e => .error e
      | .ok f => .ok [f]
    else if optIsStr m "resources/list" then
      match pyIndex req "id" with
      | .error e => .error e
      | .ok i => .ok [resFrame i (.obj [("resources", .arr [])])]
    else if optIsStr m "prompts/list" then
      match pyIndex req "id" with
      | .error e => .error e
      | .ok i => .ok [resFrame i (.obj [("prompts", .arr [])])]
    else
      .ok (sendErrorFrames req (-32601) ("Method " ++ pyShowOpt m ++ " not found."))

/-- Embedding of `req.get("id") if isinstance(req, dict) else None` from the
loop's `except Exception` clause. -/
def recoveredId (req : JVal) : JVal :=
  match req with
  | .obj fs => (lookupLast fs "id").getD .null
  | _ => .null

/-- Frames printed by `main` for one successfully parsed JSON value: the
dispatch result, or the `-32603` internal-error frame when a Python
exception escapes the handlers (loop lines 217-225). -/
def processValue (db : JVal → DbReply) (req : JVal) : List JVal :=
  match dispatchReq db req with
  | .ok frames => frames
  | .error e => [errFrame (recoveredId req) (-32603) ("Internal error: " ++ pyErrMsg e)]

/-- One line of standard input after `strip()`, with `json.loads` abstracted
to its outcome: blank, unparseable, or a parsed JSON value. -/
inductive InLine where
  | blank
  | malformed
  | value (j : JVal)

/-- Frames printed by `main` for one input line (loop lines 164-225):
blank lines are skipped, a parse failure prints the `-32700` frame with a
null `id`, a parsed value is dispatched. -/
def processLine (db : JVal → DbReply) : InLine → List JVal
  | .blank => []
  | .malformed => [errFrame .null (-32700) "Parse error"]
  | .value j => processValue db j

/-- Frames printed by `main` for a whole input stream (the loop runs until
end-of-file; per-line processing carries no state between iterations). -/
def processLines (db : JVal → DbReply) : List InLine → List JVal
  | [] => []
  | l :: ls => processLine db l ++ processLines db ls

/-- Embedding of Python `str.strip()`: drop whitespace from both ends. -/
def pyStrip (s : String) : String :=
  .mk (((s.data.dropWhile Char.isWhitespace).reverse.dropWhile Char.isWhitespace).reverse)

/-- Lowercasing of one character, as `str.lower()` acts on the ASCII range
(the SQL keywords and driver status tags being classified are ASCII). -/
def pyCharLower (c : Char) : Char :=
  if 65 ≤ c.toNat ∧ c.toNat ≤ 90 then Char.ofNat (c.toNat + 32) else c

/-- Embedding of Python `str.lower()`. -/
def pyLower (s : String) : String :=
  .mk (s.data.map pyCharLower)

/-- Embedding of Python `s.startswith(p)`. -/
def pyStartsWith (s p : String) : Bool :=
  p.data.isPrefixOf s.data

/-- Worker for `str.split()`: split on runs of whitespace, discarding empty
tokens; `cur` holds the current token reversed. -/
def splitWsGo (cur : List Char) : List Char → List (List Char)
  | [] => if cur.isEmpty then [] else [cur.reverse]
  | c :: cs =>
    if Char.isWhitespace c then
      if cur.isEmpty then splitWsGo [] cs else cur.reverse :: splitWsGo [] cs
    else splitWsGo (c :: cur) cs

/-- Embedding of Python `str.split()` with no argument. -/
def pySplit (s : String) : List String :=
  (splitWsGo [] s.data).map (fun l => .mk l)

/-- Embedding of Python `str.isdigit()` over the ASCII range: nonempty and
all characters are decimal digits. -/
def pyIsDigit (t : String) : Bool :=
  !t.isEmpty && t.data.all Char.isDigit

/-- Embedding of Python `int(t)` on a string of decimal digits (the only
use of `int` in the executor is guarded by `isdigit`). -/
def pyInt (t : String) : Nat :=
  t.data.foldl (fun acc c => acc * 10 + (c.toNat - 48)) 0

/-- The leading-keyword classifier of `execute_query` in `mcp_server2.py`
(line 123-125): `sql.strip().lower()` starts with `select` or `with`. -/
def isSelectQuery (sql : String) : Bool :=
  pyStartsWith (pyLower (pyStrip sql)) "select" || pyStartsWith (pyLower (pyStrip sql)) "with"

/-- The leading-keyword classifier of `query_db` in `query_tool.py`
(line 33): `sql.strip().lower()` starts with `select` only. -/
def queryDbIsSelect (sql : String) : Bool :=
  pyStartsWith (pyLower (pyStrip sql)) "select"

/-- Embedding of the status-tag parsing of `execute_query` in
`mcp_server2.py` (lines 152-156): `row_count = 0`, then if the status
string is truthy, split it; if it has at least two tokens and the last is
all digits, take `int` of the last token. -/
def extractRowCount (result : String) : Nat :=
  if result = "" then 0
  else
    let parts := pySplit result
    if 2 ≤ parts.length then
      match parts.getLast? with
      | some t => if pyIsDigit t then pyInt t else 0
      | none => 0
    else 0

/-- Modelled from the spec wording of the affected-row rule: the count is
the value of the trailing numeric token of the status text, and 0 when the
text is empty, has fewer than two tokens, or the trailing token is not
numeric.  Compared against `extractRowCount`, the source translation. -/
def specTrailingCount (status : String) : Nat :=
  match (pySplit status).getLast? with
  | some t => if 2 ≤ (pySplit status).length ∧ pyIsDigit t = true then pyInt t else 0
  | none => 0

/-- A value in a row fetched by asyncpg: either an ordinary JSON-compatible
value or a timestamp, which `execute_query` serializes via `isoformat()`
(the textual form is carried abstractly). -/
inductive PgVal where
  | jv (v : JVal)
  | timeVal (iso : String)

/-- Conversion of one fetched value as in `execute_query` lines 134-138:
`datetime` values become their ISO-8601 string, others pass through. -/
def convVal : PgVal → JVal
  | .jv v => v
  | .timeVal s => .str s

/-- Python dict insertion (used for `dict(zip(...))` and the row dicts):
an existing key is overwritten in place, a new key is appended. -/
def dictInsert (fs : List (String × JVal)) (k : String) (v : JVal) : List (String × JVal) :=
  match fs with
  | [] => [(k, v)]
  | (k', v') :: rest => if k' = k then (k, v) :: rest else (k', v') :: dictInsert rest k v

/-- Building a Python dict from a sequence of key/value pairs. -/
def pyDictOf (l : List (String × JVal)) : List (String × JVal) :=
  l.foldl (fun acc kv => dictInsert acc kv.1 kv.2) []

/-- One row of `conn.fetch` converted as in `execute_query` lines 131-139. -/
def rowToDict (row : List (String × PgVal)) : JVal :=
  .obj (pyDictOf (row.map (fun kv => (kv.1, convVal kv.2))))

/-- Behaviour of the asyncpg driver for one `execute_query` call: whether
`pool.acquire()` raises, and the outcome of `conn.fetch` (rows) or
`conn.execute` (a status string) — each either a value or a raised
exception's text. -/
structure PoolDriver where
  acquireErr : Option String
  fetchRes : Except String (List (List (String × PgVal)))
  execRes : Except String String

/-- The failure dict built by the `except` clause of `execute_query`
(lines 165-171): `{'success': False, 'error': str(e), 'sql': sql}`. -/
def failObj (msg sql : String) : JVal :=
  .obj [("success", .bool false), ("error", .str msg), ("sql", .str sql)]

/-- Embedding of `execute_query` from `mcp_server2.py` (lines 118-171),
with the number of held pool slots threaded explicitly.  `async with
db_pool.acquire()` is embedded as: acquire one slot, run the body to a
value or a raised exception, release the slot unconditionally, then let
the surrounding `try`/`except` turn a raised exception into the failure
dict.  Returns the result dict and the number of slots held afterwards. -/
def execute_query (sql : String) (d : PoolDriver) (held : Nat) : JVal × Nat :=
  match d.acquireErr with
  | some msg => (failObj msg sql, held)
  | none =>
    let heldIn := held + 1
    let body : Except String JVal :=
      if isSelectQuery sql then
        match d.fetchRes with
        | .error m => .error m
        | .ok rows =>
          .ok (.obj [("success", .bool true), ("type", .str "select"),
                     ("rows", .arr (rows.map rowToDict)),
                     ("row_count", .num rows.length)])
      else
        match d.execRes with
        | .error m => .error m
        | .ok status =>
          .ok (.obj [("success", .bool true), ("type", .str "modification"),
                     ("message", .str status),
                     ("affected_rows", .num (extractRowCount status))])
    let heldOut := heldIn - 1
    match body with
    | .ok v => (v, heldOut)
    | .error m => (failObj m sql, heldOut)

/-- Behaviour of the psycopg2 driver for one `query_db` call: whether
`connect` or `cursor`/`execute` raises, the outcome of `fetchall` together
with the column names from `cur.description`, and whether `commit` raises. -/
structure PgDriver where
  connectErr : Option String
  executeErr : Option String
  fetchAll : Except String (List String × List (List JVal))
  commitErr : Option String

/-- Embedding of `query_db` from `query_tool.py` (lines 24-48), with the
number of open connections threaded explicitly.  The source closes the
cursor and connection only on the straight-line path after a successful
fetch or commit; the `except` clause returns `{"error": str(e)}` without
closing, so a post-`connect` exception leaves the connection open. -/
def query_db (sql : String) (d : PgDriver) (conns : Nat) : JVal × Nat :=
  match d.connectErr with
  | some msg => (.obj [("error", .str msg)], conns)
  | none =>
    let c1 := conns + 1
    match d.executeErr with
    | some msg => (.obj [("error", .str msg)], c1)
    | none =>
      if queryDbIsSelect sql then
        match d.fetchAll with
        | .error msg => (.obj [("error", .str msg)], c1)
        | .ok (cols, rows) =>
          let result := JVal.arr (rows.map (fun row => .obj (pyDictOf (cols.zip row))))
          (.obj [("result", result)], c1 - 1)
      else
        match d.commitErr with
        | some msg => (.obj [("error", .str msg)], c1)
        | none => (.obj [("result", .obj [("status", .str "Query executed successfully")])], c1 - 1)

/-- The SQL text actually executed by the `execute_sql` tool of
`mcp_server2.py` (lines 180-184): when `explain_plan` is set and
`sql.lower().strip()` starts with `select`, the text is rewritten to
`EXPLAIN ANALYZE {sql}`; otherwise it is passed through unchanged. -/
def executeSqlText (sql : String) (explainPlan : Bool) : String :=
  if explainPlan && pyStartsWith (pyStrip (pyLower sql)) "select"
  then "EXPLAIN ANALYZE " ++ sql else sql

/-- Key lookup on a JSON value: the field value when the value is an object
holding the key, `none` otherwise. -/
def getKeyJ (v : JVal) (k : String) : Option JVal :=
  match v with
  | .obj fs => lookupLast fs k
  | _ => none

/-- Whether a JSON object carries a key (Python `k in d`). -/
def hasKeyJ (v : JVal) (k : String) : Bool :=
  (getKeyJ v k).isSome

/-- A response frame carries exactly one of `result` and `error`. -/
def oneOfResultError (f : JVal) : Prop :=
  hasKeyJ f "result" ≠ hasKeyJ f "error"

/-- A frame answering the request with id `i`: it echoes `i` and carries
exactly one of `result`/`error`. -/
def goodFrame (i f : JVal) : Prop :=
  getKeyJ f "id" = some i ∧ oneOfResultError f

/-- An arbitrary fixed database behaviour, used to instantiate closed
statements whose outcome cannot depend on the database. -/
def dbArb : JVal → DbReply := fun _ => .errReply "unused"

theorem good_res (i p : JVal) : goodFrame i (resFrame i p) :=
  ⟨rfl, fun h => Bool.noConfusion h⟩

theorem good_err (i : JVal) (c : Int) (m : String) : goodFrame i (errFrame i c m) :=
  ⟨rfl, fun h => Bool.noConfusion h⟩

theorem sendErrorFrames_of_id (fs : List (String × JVal)) (i : JVal) (c : Int) (msg : String)
    (hid : lookupLast fs "id" = some i) (hnn : i ≠ .null) :
    sendErrorFrames (.obj fs) c msg = [errFrame i c msg] := by
  cases i with
  | null => exact absurd rfl hnn
  | bool b => simp only [sendErrorFrames, hid]
  | num n => simp only [sendErrorFrames, hid]
  | str s => simp only [sendErrorFrames, hid]
  | arr xs => simp only [sendErrorFrames, hid]
  | obj gs => simp only [sendErrorFrames, hid]

theorem handleToolsCall_one_frame (db : JVal → DbReply) (fs : List (String × JVal)) (i : JVal)
    (hid : lookupLast fs "id" = some i) :
    (∃ f, handleToolsCall db (.obj fs) = .ok f ∧ goodFrame i f) ∨
    (∃ e, handleToolsCall db (.obj fs) = .error e) := by
  have hidx : pyIndex (.obj fs) "id" = .ok i := by simp [pyIndex, hid]
  unfold handleToolsCall
  rw [hidx]
  rcases hp : lookupLast fs "params" with _ | p
  · left
    refine ⟨_, ?_, good_err i (-32602) "Unknown tool: None"⟩
    simp [pyGetD, pyGet, hp, optIsStr, lookupLast, pyShowOpt]
  · cases p with
    | obj pfs =>
      by_cases ht : optIsStr (lookupLast pfs "name") "query_database" = true
      · rcases ha : lookupLast pfs "arguments" with _ | a
        · left
          refine ⟨_, ?_, good_err i (-32602) "Missing required parameter: sql"⟩
          simp [pyGetD, pyGet, hp, ha, ht, pyFalsy, lookupLast,
                (show ("" : String).isEmpty = true from rfl)]
        · cases a with
          | obj afs =>
            rcases hsql : lookupLast afs "sql" with _ | sv
            · left
              refine ⟨_, ?_, good_err i (-32602) "Missing required parameter: sql"⟩
              simp [pyGetD, pyGet, hp, ha, hsql, ht, pyFalsy,
                    (show ("" : String).isEmpty = true from rfl)]
            · by_cases hf : pyFalsy sv = true
              · left
                refine ⟨_, ?_, good_err i (-32602) "Missing required parameter: sql"⟩
                simp [pyGetD, pyGet, hp, ha, hsql, ht, hf]
              · cases hdb : db sv with
                | errReply m =>
                  left
                  refine ⟨_, ?_, good_err i (-32001) ("Database error: " ++ m)⟩
                  simp [pyGetD, pyGet, hp, ha, hsql, ht, hf, hdb]
                | okReply r =>
                  left
                  refine ⟨_, ?_, good_res i (contentEnvelope r)⟩
                  simp [pyGetD, pyGet, hp, ha, hsql, ht, hf, hdb]
          | null => right; exact ⟨.attrErr "object has no attribute get", by simp [pyGetD, pyGet, hp, ha, ht]⟩
          | bool b => right; exact ⟨.attrErr "object has no attribute get", by simp [pyGetD, pyGet, hp, ha, ht]⟩
          | num n => right; exact ⟨.attrErr "object has no attribute get", by simp [pyGetD, pyGet, hp, ha, ht]⟩
          | str s => right; exact ⟨.attrErr "object has no attribute get", by simp [pyGetD, pyGet, hp, ha, ht]⟩
          | arr xs => right; exact ⟨.attrErr "object has no attribute get", by simp [pyGetD, pyGet, hp, ha, ht]⟩
      · left
        refine ⟨_, ?_, good_err i (-32602) ("Unknown tool: " ++ pyShowOpt (lookupLast pfs "name"))⟩
        simp [pyGetD, pyGet, hp, ht]
    | null => right; exact ⟨.attrErr "object has no attribute get", by simp [pyGetD, pyGet, hp]⟩
    | bool b => right; exact ⟨.attrErr "object has no attribute get", by simp [pyGetD, pyGet, hp]⟩
    | num n => right; exact ⟨.attrErr "object has no attribute get", by simp [pyGetD, pyGet, hp]⟩
    | str s => right; exact ⟨.attrErr "object has no attribute get", by simp [pyGetD, pyGet, hp]⟩
    | arr xs => right; exact ⟨.attrErr "object has no attribute get", by simp [pyGetD, pyGet, hp]⟩

theorem with_not_select (s : String) (h : pyStartsWith s "with" = true) :
    pyStartsWith s "select" = false := by
  unfold pyStartsWith at h ⊢
  cases hs2 : s.data with
  | nil =>
    rw [hs2] at h
    exact absurd h (by decide)
  | cons c cs =>
    rw [hs2] at h
    have h' : (('w' == c) && List.isPrefixOf ['i', 't', 'h'] cs) = true := h
    have h'' : 'w' = c ∧ List.isPrefixOf ['i', 't', 'h'] cs = true := by simpa using h'
    obtain ⟨h1, -⟩ := h''
    subst h1
    rfl

/-- C1: for every parsed request object carrying a non-null `id` — in
particular every well-formed request with a non-null `id` — and every
database behaviour, processing the request emits exactly one response
frame; the frame's `id` field equals the request's `id` value unchanged,
and the frame carries exactly one of `result` and `error`. -/
theorem c1_request_with_id_gets_exactly_one_response (db : JVal → DbReply)
    (fs : List (String × JVal)) (i : JVal)
    (hid : lookupLast fs "id" = some i) (hnn : i ≠ .null) :
    ∃ f, processValue db (.obj fs) = [f] ∧ goodFrame i f := by
  have hidx : pyIndex (.obj fs) "id" = .ok i := by simp [pyIndex, hid]
  have hrec : recoveredId (.obj fs) = i := by simp [recoveredId, hid]
  unfold processValue dispatchReq
  rw [hidx]
  by_cases h1 : optIsStr (lookupLast fs "method") "initialize" = true
  · refine ⟨resFrame i initPayload, ?_, good_res i _⟩
    simp [pyGet, h1]
  · by_cases h2 : optIsStr (lookupLast fs "method") "tools/list" = true
    · refine ⟨resFrame i toolsListPayload, ?_, good_res i _⟩
      simp [pyGet, h1, h2]
    · by_cases h3 : optIsStr (lookupLast fs "method") "tools/call" = true
      · rcases handleToolsCall_one_frame db fs i hid with ⟨f, hf, hg⟩ | ⟨e, he⟩
        · refine ⟨f, ?_, hg⟩
          simp [pyGet, h1, h2, h3, hf]
        · refine ⟨errFrame i (-32603) ("Internal error: " ++ pyErrMsg e), ?_, good_err i _ _⟩
          simp [pyGet, h1, h2, h3, he, hrec]
      · by_cases h4 : optIsStr (lookupLast fs "method") "resources/list" = true
        · refine ⟨resFrame i (.obj [("resources", .arr [])]), ?_, good_res i _⟩
          simp [pyGet, h1, h2, h3, h4]
        · by_cases h5 : optIsStr (lookupLast fs "method") "prompts/list" = true
          · refine ⟨resFrame i (.obj [("prompts", .arr [])]), ?_, good_res i _⟩
            simp [pyGet, h1, h2, h3, h4, h5]
          · refine ⟨errFrame i (-32601) ("Method " ++ pyShowOpt (lookupLast fs "method") ++ " not found."),
              ?_, good_err i _ _⟩
            simp [pyGet, h1, h2, h3, h4, h5, sendErrorFrames_of_id fs i _ _ hid hnn]

/-- Witness for C1: the concrete request `{"id": 7, "method": "initialize"}`
gets exactly one well-formed response frame echoing id 7. -/
theorem c1_request_with_id_witness :
    ∃ f, processValue dbArb (.obj [("id", .num 7), ("method", .str "initialize")]) = [f] ∧
      goodFrame (.num 7) f :=
  c1_request_with_id_gets_exactly_one_response dbArb
    [("id", .num 7), ("method", .str "initialize")] (.num 7) rfl
    (fun h => JVal.noConfusion h)

/-- C2 (bug evidence): the notification `{"method": "initialize"}` — no
`id` field — does not get zero frames: `handle_initialize` evaluates
`req["id"]`, the `KeyError` escapes to the loop's `except Exception`
clause, and one `-32603` frame with `id = null` is printed.  The same
happens for every known method; only unknown-method notifications are
silently dropped. -/
theorem c2_known_method_notification_emits_internal_error_frame :
    processValue dbArb (.obj [("method", .str "initialize")]) =
      [errFrame .null (-32603) "Internal error: 'id'"] := rfl

/-- C6: a line that fails JSON parsing yields exactly one interposed frame
with code `-32700` and `id = null`, and the surrounding lines — before and
after — are processed exactly as they would be on their own: the loop
continues. -/
theorem c6_malformed_line_isolated_with_parse_error_frame (db : JVal → DbReply)
    (pre post : List InLine) :
    processLines db (pre ++ .malformed :: post) =
      processLines db pre ++ errFrame .null (-32700) "Parse error" :: processLines db post ∧
    getKeyJ (errFrame .null (-32700) "Parse error") "id" = some .null := by
  constructor
  · induction pre with
    | nil => simp [processLines, processLine]
    | cons l ls ih => simp [processLines, ih]
  · rfl

/-- C8 counterexample: a well-formed request whose method is unknown but
which carries no `id` (a notification), or an explicit `id = null`, gets
zero frames — not a `-32601` response as the claim states for every
well-formed request with an unknown method. -/
theorem c8_unknown_method_notification_gets_no_frame :
    processValue dbArb (.obj [("method", .str "nonexistent/method")]) = [] ∧
    processValue dbArb (.obj [("id", .null), ("method", .str "nonexistent/method")]) = [] :=
  ⟨rfl, rfl⟩

/-- C8 amended: for every request object carrying a non-null `id` and a
string method outside the fixed table, the system responds with exactly
one `-32601` frame whose `id` equals the request's `id`. -/
theorem c8_amended_unknown_method_error_for_nonnull_id (db : JVal → DbReply)
    (fs : List (String × JVal)) (i : JVal) (m : String)
    (hm : lookupLast fs "method" = some (.str m))
    (h1 : m ≠ "initialize") (h2 : m ≠ "tools/list") (h3 : m ≠ "tools/call")
    (h4 : m ≠ "resources/list") (h5 : m ≠ "prompts/list")
    (hid : lookupLast fs "id" = some i) (hnn : i ≠ .null) :
    processValue db (.obj fs) = [errFrame i (-32601) ("Method " ++ m ++ " not found.")] := by
  unfold processValue dispatchReq
  simp [pyGet, hm, optIsStr, h1, h2, h3, h4, h5,
        sendErrorFrames_of_id fs i _ _ hid hnn, pyShowOpt, pyShowVal]

/-- Witness for the amended C8: `{"id": 9, "method": "shutdown"}` gets one
`-32601` frame echoing id 9. -/
theorem c8_amended_unknown_method_witness :
    processValue dbArb (.obj [("id", .num 9), ("method", .str "shutdown")]) =
      [errFrame (.num 9) (-32601) "Method shutdown not found."] :=
  c8_amended_unknown_method_error_for_nonnull_id dbArb
    [("id", .num 9), ("method", .str "shutdown")] (.num 9) "shutdown"
    rfl (by decide) (by decide) (by decide) (by decide) (by decide) rfl
    (fun hh => JVal.noConfusion hh)

/-- C10: in `handle_tools_call`, an `arguments` object with `"sql": ""` and
one with no `sql` key produce the identical `-32602` "Missing required
parameter: sql" frame echoing the request's `id`, and the outcome is
independent of the database behaviour (the database is never consulted:
the result is the same for every pair of behaviours `db`, `db'`). -/
theorem c10_empty_sql_equals_absent_sql (db db' : JVal → DbReply) (i : JVal) :
    processValue db (.obj [("id", i), ("method", .str "tools/call"),
      ("params", .obj [("name", .str "query_database"),
                       ("arguments", .obj [("sql", .str "")])])]) =
      [errFrame i (-32602) "Missing required parameter: sql"] ∧
    processValue db' (.obj [("id", i), ("method", .str "tools/call"),
      ("params", .obj [("name", .str "query_database"),
                       ("arguments", .obj [])])]) =
      [errFrame i (-32602) "Missing required parameter: sql"] := ⟨rfl, rfl⟩

/-- C3 counterexample: `query_db` — one of the two executors the claim
covers — routes the `with`-prefixed SQL text below to the
execute-and-commit path (its output is the commit-path status dict, not
the fetched rows), although the text's trimmed case-folded form starts
with `with`, which the claim says must take the Rows (fetch) path. -/
theorem c3_with_prefixed_sql_takes_commit_path_in_query_db :
    pyStartsWith (pyLower (pyStrip "WITH t AS (SELECT 1) SELECT * FROM t")) "with" = true ∧
    query_db "WITH t AS (SELECT 1) SELECT * FROM t"
        ⟨none, none, .ok (["x"], [[.num 1]]), none⟩ 0 =
      (.obj [("result", .obj [("status", .str "Query executed successfully")])], 0) ∧
    (JVal.obj [("result", .obj [("status", .str "Query executed successfully")])] ≠
      .obj [("result", .arr [.obj [("x", .num 1)]])]) := by
  refine ⟨rfl, rfl, ?_⟩
  intro h
  simp at h

/-- C3 amended: `execute_query` chooses its result tag exactly as the claim
states — `select`/`with`-prefixed (trimmed, case-folded) text is tagged
`select`, anything else `modification` — while `query_db` sends only
`select`-prefixed text down its fetch path; `with`-prefixed text takes its
execute-and-commit path. -/
theorem c3_amended_leading_keyword_classification :
    (∀ (sql : String) (d : PoolDriver) (held : Nat) rows status,
      d.acquireErr = none → d.fetchRes = .ok rows → d.execRes = .ok status →
      getKeyJ (execute_query sql d held).1 "type" =
        some (.str (if isSelectQuery sql then "select" else "modification"))) ∧
    (∀ (sql : String) (d : PgDriver) (c : Nat) cols rows,
      d.connectErr = none → d.executeErr = none → d.fetchAll = .ok (cols, rows) →
      d.commitErr = none →
      (query_db sql d c).1 =
        (if queryDbIsSelect sql then
          .obj [("result", .arr (rows.map (fun row => .obj (pyDictOf (cols.zip row)))))]
        else .obj [("result", .obj [("status", .str "Query executed successfully")])])) := by
  constructor
  · intro sql d held rows status hacq hf he
    unfold execute_query
    rw [hacq, hf, he]
    cases hs : isSelectQuery sql <;> rfl
  · intro sql d c cols rows hc hx hf hcm
    unfold query_db
    rw [hc, hx, hf, hcm]
    cases hs : queryDbIsSelect sql <;> rfl

/-- Witness for the amended C3: `SELECT 1` is tagged `select` by
`execute_query`. -/
theorem c3_amended_classification_witness :
    getKeyJ (execute_query "SELECT 1" ⟨none, .ok [], .ok "SELECT 1"⟩ 0).1 "type" =
      some (.str "select") := by
  have h := c3_amended_leading_keyword_classification.1 "SELECT 1"
    ⟨none, .ok [], .ok "SELECT 1"⟩ 0 [] "SELECT 1" rfl rfl rfl
  exact h

/-- C4 counterexample: when the driver raises during `connect`, `query_db`
— cited by the claim alongside `execute_query` — returns `{"error": msg}`
only: the failure outcome does not carry the original SQL text (no `sql`
key), contradicting "carries both the driver's error text and the
original SQL text". -/
theorem c4_query_db_failure_omits_sql_text :
    query_db "SELECT 1" ⟨some "connection refused", none, .ok ([], []), none⟩ 0 =
      (.obj [("error", .str "connection refused")], 0) ∧
    getKeyJ (.obj [("error", .str "connection refused")]) "sql" = none := ⟨rfl, rfl⟩

/-- C4 amended: both executors convert every driver-level failure into a
returned outcome and never let the exception escape (each function is
total and each failure point below yields a return value).
`execute_query`'s failure dict carries both the error text and the
original SQL; `query_db`'s carries only the error text and no `sql` key. -/
theorem c4_amended_failure_outcome_contents :
    (∀ (msg sql : String), getKeyJ (failObj msg sql) "error" = some (.str msg) ∧
        getKeyJ (failObj msg sql) "sql" = some (.str sql)) ∧
    (∀ (sql msg : String) (d : PoolDriver) (held : Nat), d.acquireErr = some msg →
        (execute_query sql d held).1 = failObj msg sql) ∧
    (∀ (sql msg : String) (d : PoolDriver) (held : Nat), d.acquireErr = none →
        isSelectQuery sql = true → d.fetchRes = .error msg →
        (execute_query sql d held).1 = failObj msg sql) ∧
    (∀ (sql msg : String) (d : PoolDriver) (held : Nat), d.acquireErr = none →
        isSelectQuery sql = false → d.execRes = .error msg →
        (execute_query sql d held).1 = failObj msg sql) ∧
    (∀ (sql msg : String) (d : PgDriver) (c : Nat), d.connectErr = some msg →
        (query_db sql d c).1 = .obj [("error", .str msg)]) ∧
    (∀ (sql msg : String) (d : PgDriver) (c : Nat), d.connectErr = none →
        d.executeErr = some msg → (query_db sql d c).1 = .obj [("error", .str msg)]) ∧
    (∀ (sql msg : String) (d : PgDriver) (c : Nat), d.connectErr = none →
        d.executeErr = none → queryDbIsSelect sql = true → d.fetchAll = .error msg →
        (query_db sql d c).1 = .obj [("error", .str msg)]) ∧
    (∀ (sql msg : String) (d : PgDriver) (c : Nat), d.connectErr = none →
        d.executeErr = none → queryDbIsSelect sql = false → d.commitErr = some msg →
        (query_db sql d c).1 = .obj [("error", .str msg)]) ∧
    (∀ msg : String, getKeyJ (.obj [("error", .str msg)]) "sql" = none) := by
  refine ⟨fun msg sql => ⟨rfl, rfl⟩, ?_, ?_, ?_, ?_, ?_, ?_, ?_, fun msg => rfl⟩
  · intro sql msg d held h
    unfold execute_query
    rw [h]
  · intro sql msg d held hacq hsel hf
    unfold execute_query
    rw [hacq, hsel, hf]
    rfl
  · intro sql msg d held hacq hsel he
    unfold execute_query
    rw [hacq, hsel, he]
    rfl
  · intro sql msg d c h
    unfold query_db
    rw [h]
  · intro sql msg d c hc hx
    unfold query_db
    rw [hc, hx]
  · intro sql msg d c hc hx hsel hf
    unfold query_db
    rw [hc, hx, hsel, hf]
    rfl
  · intro sql msg d c hc hx hsel hcm
    unfold query_db
    rw [hc, hx, hsel, hcm]
    rfl

/-- Witness for the amended C4: an acquire failure on `SELECT 1` yields the
failure dict with both error text and SQL. -/
theorem c4_amended_failure_witness :
    (execute_query "SELECT 1" ⟨some "connection reset", .ok [], .ok ""⟩ 0).1 =
      failObj "connection reset" "SELECT 1" :=
  c4_amended_failure_outcome_contents.2.1 "SELECT 1" "connection reset"
    ⟨some "connection reset", .ok [], .ok ""⟩ 0 rfl

/-- C5 counterexample: `query_db` — cited by the claim alongside
`execute_query` — does not release its connection on the exit path where
the driver raises after `connect`: starting with 0 open connections, the
call returns with 1 still open. -/
theorem c5_query_db_leaks_connection_on_driver_error :
    (query_db "DELETE FROM trips" ⟨none, some "syntax error", .ok ([], []), none⟩ 0).2 = 1 ∧
    ¬ ((query_db "DELETE FROM trips" ⟨none, some "syntax error", .ok ([], []), none⟩ 0).2 = 0) :=
  ⟨rfl, by decide⟩

/-- C5 amended: `execute_query` releases its pool slot on every exit path
(the held count is unchanged by every call, whatever the driver does),
while `query_db` restores the connection count only on its success path;
on a post-`connect` driver exception it returns with the count
incremented. -/
theorem c5_amended_connection_release :
    (∀ (sql : String) (d : PoolDriver) (held : Nat), (execute_query sql d held).2 = held) ∧
    (∀ (sql msg : String) (d : PgDriver) (c : Nat), d.connectErr = none →
        d.executeErr = some msg → (query_db sql d c).2 = c + 1) ∧
    (∀ (sql : String) (d : PgDriver) (c : Nat) cols rows, d.connectErr = none →
        d.executeErr = none → d.fetchAll = .ok (cols, rows) → d.commitErr = none →
        (query_db sql d c).2 = c) := by
  refine ⟨?_, ?_, ?_⟩
  · intro sql d held
    unfold execute_query
    cases d.acquireErr with
    | some m => rfl
    | none =>
      simp only []
      split
      all_goals simp
  · intro sql msg d c hc hx
    unfold query_db
    rw [hc, hx]
  · intro sql d c cols rows hc hx hf hcm
    unfold query_db
    rw [hc, hx, hf, hcm]
    cases hs : queryDbIsSelect sql <;> rfl

/-- Witness for the amended C5: a driver error during `execute` leaves the
`query_db` connection count at 6 when it was 5 before the call. -/
theorem c5_amended_release_witness :
    (query_db "UPDATE trips SET fare = 0"
      ⟨none, some "deadlock detected", .ok ([], []), none⟩ 5).2 = 6 :=
  c5_amended_connection_release.2.1 "UPDATE trips SET fare = 0" "deadlock detected"
    ⟨none, some "deadlock detected", .ok ([], []), none⟩ 5 rfl rfl

/-- C7: the affected-row count parsed by `execute_query` equals, for every
status text, the spec's rule — the value of the trailing numeric token
when the text is nonempty with at least two tokens and an all-digit last
token, 0 otherwise — and on every modification path the returned
`affected_rows` field is that count. -/
theorem c7_affected_rows_from_trailing_status_token :
    (∀ status, extractRowCount status = specTrailingCount status) ∧
    (∀ (sql status : String) (d : PoolDriver) (held : Nat), d.acquireErr = none →
      isSelectQuery sql = false → d.execRes = .ok status →
      getKeyJ (execute_query sql d held).1 "affected_rows" =
        some (.num (extractRowCount status))) := by
  constructor
  · intro status
    by_cases hs : status = ""
    · subst hs; rfl
    · unfold extractRowCount specTrailingCount
      simp only [hs, if_false]
      rcases hlast : (pySplit status).getLast? with _ | t
      · by_cases hlen : 2 ≤ (pySplit status).length <;> simp [hlen, hlast]
      · by_cases hlen : 2 ≤ (pySplit status).length
        · by_cases hd : pyIsDigit t = true <;> simp [hlen, hlast, hd]
        · simp [hlen, hlast]
  · intro sql status d held hacq hsel he
    unfold execute_query
    rw [hacq, hsel, he]
    rfl

/-- Witness for C7: the status tag `DELETE 5` yields `affected_rows = 5` on
a modification statement. -/
theorem c7_affected_rows_witness :
    getKeyJ (execute_query "DELETE FROM trips WHERE fare < 0"
      ⟨none, .ok [], .ok "DELETE 5"⟩ 0).1 "affected_rows" = some (.num 5) := by
  have h := c7_affected_rows_from_trailing_status_token.2 "DELETE FROM trips WHERE fare < 0"
    "DELETE 5" ⟨none, .ok [], .ok "DELETE 5"⟩ 0 rfl rfl rfl
  exact h

/-- C9 counterexample: the `with`-prefixed text below is classified as a
read by the executor's classifier (`select` or `with`), yet with
`explain_plan` set `execute_sql` passes it through unchanged — no
`EXPLAIN ANALYZE` rewrite, contradicting the claim for `with`-reads. -/
theorem c9_with_prefixed_read_not_rewritten :
    isSelectQuery "WITH t AS (SELECT 1) SELECT * FROM t" = true ∧
    executeSqlText "WITH t AS (SELECT 1) SELECT * FROM t" true =
      "WITH t AS (SELECT 1) SELECT * FROM t" := ⟨rfl, rfl⟩

/-- C9 amended: the `explain_plan` rewrite applies exactly when the flag is
set and the trimmed case-folded text starts with `select`; text that does
not start with `select` — including every `with`-prefixed read — is
passed through unchanged, as is everything when the flag is unset. -/
theorem c9_amended_explain_only_for_select_reads (sql : String) (ep : Bool) :
    (ep = false → executeSqlText sql ep = sql) ∧
    (pyStartsWith (pyStrip (pyLower sql)) "select" = true → ep = true →
      executeSqlText sql ep = "EXPLAIN ANALYZE " ++ sql) ∧
    (pyStartsWith (pyStrip (pyLower sql)) "select" = false → executeSqlText sql ep = sql) ∧
    (pyStartsWith (pyStrip (pyLower sql)) "with" = true → executeSqlText sql ep = sql) := by
  refine ⟨?_, ?_, ?_, ?_⟩
  · intro h; subst h; simp [executeSqlText]
  · intro hs he; subst he; simp [executeSqlText, hs]
  · intro hs; simp [executeSqlText, hs]
  · intro hw; simp [executeSqlText, with_not_select _ hw]

/-- Witness for the amended C9: a `select`-prefixed text with the flag set
is rewritten to request the execution plan. -/
theorem c9_amended_explain_witness :
    executeSqlText "SELECT * FROM trips" true = "EXPLAIN ANALYZE SELECT * FROM trips" := by
  have h := (c9_amended_explain_only_for_select_reads "SELECT * FROM trips" true).2.1 rfl rfl
  exact h
